import Mathlib

/-!
Verification of the evaluation/scoring, monitoring and aggregate-invariant
logic of the iso38500 governance SDK (Go).  The Go code is shallowly
embedded: structs become structures, string enums with a closed set of
declared constants become inductive types, `time.Time` instants and
`time.Duration` values become rationals (in hours; Go's zero time is the
rational 0), Go `float64` arithmetic is modelled in exact rational
arithmetic (every float expression the verified claims depend on is either
exact in binary floating point or verified below to yield the same integer
after the final conversion), fallible operations return `Except String`,
and the repository interfaces become explicit lookup functions.
-/

namespace Iso38500

/-- A Go `time.Time`, as rational hours since Go's zero time.  The zero
value (`IsZero()` in Go) is the rational 0; `time.Since(t)` with current
time `now` is `now - t` (hours). -/
abbrev GoTime := ℚ

/-- Go `float64 → int` conversion truncates toward zero. -/
def goTrunc (q : ℚ) : Int := if q < 0 then ⌈q⌉ else ⌊q⌋

/-- `type ApplicationStatus string` with its four declared constants. -/
inductive ApplicationStatus
  | active
  | deprecated
  | retired
  | planned
  deriving DecidableEq, Inhabited, Repr

/-- `type AgreementStatus string` with its five declared constants. -/
inductive AgreementStatus
  | draft
  | approved
  | active
  | suspended
  | retired
  deriving DecidableEq, Inhabited, Repr

/-- `type RiskLevel string` with its four declared constants. -/
inductive RiskLevel
  | low
  | medium
  | high
  | critical
  deriving DecidableEq, Inhabited, Repr

/-- `type RiskImpact string` with its four declared constants. -/
inductive RiskImpact
  | low
  | medium
  | high
  | critical
  deriving DecidableEq, Inhabited, Repr

/-- `type RiskStatus string` with its three declared constants. -/
inductive RiskStatus
  | normal
  | warning
  | critical
  deriving DecidableEq, Inhabited, Repr

/-- `type Priority string` with its four declared constants. -/
inductive Priority
  | critical
  | high
  | medium
  | low
  deriving DecidableEq, Inhabited, Repr

/-- `type RecommendationType string` with its five declared constants. -/
inductive RecommendationType
  | modernize
  | replace
  | enhance
  | retire
  | maintain
  deriving DecidableEq, Inhabited, Repr

/-- `type FunctionalityStatus string`. -/
inductive FunctionalityStatus
  | available
  | planned
  | deprecated
  | unavailable
  deriving DecidableEq, Inhabited, Repr

/-- `type KPIStatus string`. -/
inductive KPIStatus
  | onTrack
  | atRisk
  | offTrack
  | notMeasured
  deriving DecidableEq, Inhabited, Repr

/-- `type SecurityStatus string`. -/
inductive SecurityStatus
  | implemented
  | planned
  | partiallyImplemented
  | notStarted
  deriving DecidableEq, Inhabited, Repr

/-- `type InterfaceType string`. -/
inductive InterfaceType
  | api
  | database
  | file
  | message
  | ui
  deriving DecidableEq, Inhabited, Repr

/-- `type InterfaceStatus string`. -/
inductive InterfaceStatus
  | active
  | inactive
  | testing
  | failed
  deriving DecidableEq, Inhabited, Repr

/-- `type ContinuityType string`. -/
inductive ContinuityType
  | disasterRecovery
  | backup
  | failover
  | redundantSystems
  deriving DecidableEq, Inhabited, Repr

/-- `type PlanStatus string`. -/
inductive PlanStatus
  | documented
  | tested
  | active
  | outdated
  deriving DecidableEq, Inhabited, Repr

/-- `type ComplianceStatus string`. -/
inductive ComplianceStatus
  | compliant
  | nonCompliant
  | partiallyCompliant
  | underReview
  deriving DecidableEq, Inhabited, Repr

/-- `type ActionStatus string`. -/
inductive ActionStatus
  | pending
  | inProgress
  | completed
  | cancelled
  deriving DecidableEq, Inhabited, Repr

abbrev ApplicationID := String
abbrev GovernanceAgreementID := String
abbrev PortfolioID := String

/-- `EscalationLevel` (entity model). -/
structure EscalationLevel where
  level : Int
  description : String
  responseTime : ℚ
  contacts : List String
  deriving DecidableEq, Inhabited, Repr

/-- `SLA`: a service level agreement.  `ResponseTime` is a `time.Duration`
(rational hours here). -/
structure SLA where
  serviceName : String
  responseTime : ℚ
  availability : ℚ
  uptime : String
  supportHours : String
  escalationMatrix : List EscalationLevel
  deriving DecidableEq, Inhabited, Repr

/-- `SecurityMeasure`. -/
structure SecurityMeasure where
  name : String
  description : String
  category : String
  status : SecurityStatus
  deriving DecidableEq, Inhabited, Repr

/-- `RolePermission`. -/
structure RolePermission where
  role : String
  permissions : List String
  resource : String
  deriving DecidableEq, Inhabited, Repr

/-- `SecurityProvisions`. -/
structure SecurityProvisions where
  dataConfidentiality : List SecurityMeasure
  dataIntegrity : List SecurityMeasure
  applicationAvailability : SLA
  applicationAuthenticity : List SecurityMeasure
  rolesAndPermissions : List RolePermission
  deriving DecidableEq, Inhabited, Repr

/-- `Functionality`: a business function listed in the catalogue. -/
structure Functionality where
  id : String
  name : String
  description : String
  category : String
  priority : Priority
  status : FunctionalityStatus
  deriving DecidableEq, Inhabited, Repr

/-- `ApplicationCatalogue`. -/
structure ApplicationCatalogue where
  functionality : List Functionality
  lastUpdated : GoTime
  deriving DecidableEq, Inhabited, Repr

/-- `ApplicationInterface`. -/
structure ApplicationInterface where
  id : String
  name : String
  type : InterfaceType
  description : String
  protocol : String
  endpoint : String
  status : InterfaceStatus
  deriving DecidableEq, Inhabited, Repr

/-- `EnvironmentVariable`. -/
structure EnvironmentVariable where
  name : String
  value : String
  description : String
  required : Bool
  sensitive : Bool
  deriving DecidableEq, Inhabited, Repr

/-- `ConfigurationFile`. -/
structure ConfigurationFile where
  path : String
  format : String
  description : String
  required : Bool
  deriving DecidableEq, Inhabited, Repr

/-- `SecuritySetting`. -/
structure SecuritySetting where
  name : String
  value : String
  description : String
  category : String
  deriving DecidableEq, Inhabited, Repr

/-- `ConfigurationStandard`. -/
structure ConfigurationStandard where
  environmentVariables : List EnvironmentVariable
  configurationFiles : List ConfigurationFile
  securitySettings : List SecuritySetting
  lastUpdated : GoTime
  deriving DecidableEq, Inhabited, Repr

/-- `ContinuityPlan`. -/
structure ContinuityPlan where
  name : String
  description : String
  type : ContinuityType
  status : PlanStatus
  deriving DecidableEq, Inhabited, Repr

/-- `BusinessContinuity`. -/
structure BusinessContinuity where
  recoveryTimeObjective : ℚ
  recoveryPointObjective : ℚ
  businessImpactAnalysis : String
  continuityPlans : List ContinuityPlan
  testingSchedule : String
  deriving DecidableEq, Inhabited, Repr

/-- `Application`: the central entity. -/
structure Application where
  id : ApplicationID
  name : String
  description : String
  version : String
  status : ApplicationStatus
  createdAt : GoTime
  updatedAt : GoTime
  governanceAgreementID : GovernanceAgreementID
  catalogue : ApplicationCatalogue
  interfaces : List ApplicationInterface
  configurationStandard : ConfigurationStandard
  securityProvisions : SecurityProvisions
  businessContinuity : BusinessContinuity
  deriving DecidableEq, Inhabited, Repr

/-- `KPI`. -/
structure KPI where
  id : String
  name : String
  description : String
  target : ℚ
  unit : String
  category : String
  frequency : String
  status : KPIStatus
  deriving DecidableEq, Inhabited, Repr

/-- `KPIMeasurement`. -/
structure KPIMeasurement where
  kpiID : String
  value : ℚ
  target : ℚ
  achieved : Bool
  measuredAt : GoTime
  notes : String
  deriving DecidableEq, Inhabited, Repr

/-- `Risk`: an identified risk (`Probability` is documented 0-1). -/
structure Risk where
  id : String
  name : String
  description : String
  category : String
  probability : ℚ
  impact : RiskImpact
  level : RiskLevel
  deriving DecidableEq, Inhabited, Repr

/-- `RiskIndicator`. -/
structure RiskIndicator where
  name : String
  value : ℚ
  threshold : ℚ
  status : RiskStatus
  deriving DecidableEq, Inhabited, Repr

/-- `RiskHeatMap`.  The Go `map[string]map[string]float64` data field is
modelled as an association list; the engine only ever constructs it empty. -/
structure RiskHeatMap where
  name : String
  description : String
  data : List (String × List (String × ℚ))
  deriving DecidableEq, Inhabited, Repr

/-- `MitigationTracking`. -/
structure MitigationTracking where
  mitigationID : String
  status : ActionStatus
  progress : ℚ
  notes : String
  deriving DecidableEq, Inhabited, Repr

/-- `RiskMonitoring`. -/
structure RiskMonitoring where
  riskIndicators : List RiskIndicator
  riskHeatMaps : List RiskHeatMap
  mitigationTracking : List MitigationTracking
  deriving DecidableEq, Inhabited, Repr

/-- `AuditRequirement`. -/
structure AuditRequirement where
  name : String
  description : String
  frequency : String
  responsible : String
  lastAudit : GoTime
  nextAudit : GoTime
  deriving DecidableEq, Inhabited, Repr

/-- `ComplianceMonitoring`. -/
structure ComplianceMonitoring where
  monitoringFrequency : String
  responsibleParties : List String
  reportingSchedule : String
  auditRequirements : List AuditRequirement
  deriving DecidableEq, Inhabited, Repr

/-- `LegalRequirement`. -/
structure LegalRequirement where
  name : String
  description : String
  authority : String
  effectiveDate : GoTime
  status : ComplianceStatus
  deriving DecidableEq, Inhabited, Repr

/-- `ContractualRequirement`. -/
structure ContractualRequirement where
  name : String
  description : String
  contractID : String
  party : String
  status : ComplianceStatus
  deriving DecidableEq, Inhabited, Repr

/-- `IndustryStandard`. -/
structure IndustryStandard where
  name : String
  description : String
  organization : String
  version : String
  status : ComplianceStatus
  deriving DecidableEq, Inhabited, Repr

/-- `Conformance`. -/
structure Conformance where
  legalRequirements : List LegalRequirement
  contractualRequirements : List ContractualRequirement
  industryStandards : List IndustryStandard
  complianceMonitoring : ComplianceMonitoring
  deriving DecidableEq, Inhabited, Repr

/-- `StrategicObjective`. -/
structure StrategicObjective where
  id : String
  name : String
  description : String
  kpis : List KPI
  deadline : GoTime
  deriving DecidableEq, Inhabited, Repr

/-- `StrategicInitiative`. -/
structure StrategicInitiative where
  id : String
  name : String
  description : String
  owner : String
  budget : ℚ
  deadline : GoTime
  deriving DecidableEq, Inhabited, Repr

/-- `StrategicDirection`. -/
structure StrategicDirection where
  vision : String
  mission : String
  objectives : List StrategicObjective
  initiatives : List StrategicInitiative
  timeframe : ℚ
  deriving DecidableEq, Inhabited, Repr

/-- `BudgetAllocation`. -/
structure BudgetAllocation where
  category : String
  amount : ℚ
  timeframe : String
  justification : String
  deriving DecidableEq, Inhabited, Repr

/-- `PersonnelAllocation`. -/
structure PersonnelAllocation where
  role : String
  count : Int
  skillLevel : String
  timeframe : String
  deriving DecidableEq, Inhabited, Repr

/-- `TechnologyAllocation`. -/
structure TechnologyAllocation where
  technology : String
  purpose : String
  budget : ℚ
  timeframe : String
  deriving DecidableEq, Inhabited, Repr

/-- `ResourceAllocation`. -/
structure ResourceAllocation where
  budgetAllocations : List BudgetAllocation
  personnelAllocations : List PersonnelAllocation
  technologyAllocations : List TechnologyAllocation
  deriving DecidableEq, Inhabited, Repr

/-- `DirectPrinciple`.  The policy-framework and action-plan sub-structures
of the Go struct are never read by any operation verified here (only the
Direction engine writes them) and are omitted. -/
structure DirectPrinciple where
  strategicDirection : StrategicDirection
  resourceAllocation : ResourceAllocation
  lastDirected : GoTime
  deriving DecidableEq, Inhabited, Repr

/-- `EvaluatePrinciple`.  The current-situation, needs-assessment and
risk-assessment sub-structures are never read by any operation verified
here and are omitted; `PerformanceMetrics` is the field the business-value
scoring reads. -/
structure EvaluatePrinciple where
  performanceMetrics : List KPIMeasurement
  lastEvaluated : GoTime
  deriving DecidableEq, Inhabited, Repr

/-- `RACIEntry`. -/
structure RACIEntry where
  activity : String
  responsible : String
  accountable : String
  consulted : String
  informed : String
  deriving DecidableEq, Inhabited, Repr

/-- `ResponsibilityMatrix`. -/
structure ResponsibilityMatrix where
  entries : List RACIEntry
  deriving DecidableEq, Inhabited, Repr

/-- `GovernanceAgreement`.  The Strategy, Acquisition, Performance,
Implementation and Monitor components of the Go struct are never read by
any operation verified here and are omitted; the evaluation engine reads
only `Conformance.ComplianceMonitoring.MonitoringFrequency`,
`Direct.StrategicDirection.Objectives`,
`Direct.ResourceAllocation.BudgetAllocations` and
`Evaluate.PerformanceMetrics` (plus mere presence of the agreement). -/
structure GovernanceAgreement where
  id : GovernanceAgreementID
  applicationID : ApplicationID
  title : String
  version : String
  status : AgreementStatus
  createdAt : GoTime
  updatedAt : GoTime
  responsibilityMatrix : ResponsibilityMatrix
  conformance : Conformance
  evaluate : EvaluatePrinciple
  direct : DirectPrinciple
  deriving DecidableEq, Inhabited, Repr

/-- `ApplicationPortfolio`. -/
structure ApplicationPortfolio where
  id : PortfolioID
  name : String
  description : String
  owner : String
  applications : List Application
  kpis : List KPI
  createdAt : GoTime
  updatedAt : GoTime
  deriving DecidableEq, Inhabited, Repr

/-- `TechnicalHealth` (four 1-5 integer sub-scores plus a float
test-coverage percentage). -/
structure TechnicalHealth where
  codeQuality : Int
  documentation : Int
  testCoverage : ℚ
  securityScore : Int
  performanceScore : Int
  deriving DecidableEq, Inhabited, Repr

/-- `UsageMetrics`. -/
structure UsageMetrics where
  activeUsers : Int
  transactionVolume : Int
  uptimePercentage : ℚ
  responseTime : ℚ
  deriving DecidableEq, Inhabited, Repr

/-- `BusinessValueAssessment`. -/
structure BusinessValueAssessment where
  usageMetrics : UsageMetrics
  businessAlignment : ℚ
  costEfficiency : ℚ
  userSatisfaction : ℚ
  deriving DecidableEq, Inhabited, Repr

/-- `Recommendation`. -/
structure Recommendation where
  id : String
  type : RecommendationType
  description : String
  priority : Priority
  estimatedEffort : ℚ
  businessImpact : String
  deriving DecidableEq, Inhabited, Repr

/-- `ApplicationAssessment` (derived, never persisted). -/
structure ApplicationAssessment where
  applicationID : ApplicationID
  technicalHealth : TechnicalHealth
  businessValue : BusinessValueAssessment
  riskLevel : RiskLevel
  recommendations : List Recommendation
  deriving DecidableEq, Inhabited, Repr

/-- `PortfolioHealthAssessment`.  The Go `map[RiskLevel]int` histogram is
modelled as a total function with default 0. -/
structure PortfolioHealthAssessment where
  totalApplications : Int
  activeApplications : Int
  deprecatedApplications : Int
  redundantApplications : Int
  totalCost : ℚ
  averageApplicationAge : ℚ
  riskDistribution : RiskLevel → Int
  deriving Inhabited


/-! ### Evaluation service (richer variant, taking a governance-agreement
repository; the scoring helpers of `EvaluationService`). -/

/-- `analyzeVersionMaturity`.  The source's dev/alpha/beta/rc branch and its
fall-through both return 0, so only the empty-version penalty and the
semantic-versioning bonus distinguish outputs. -/
def analyzeVersionMaturity (version : String) : Int :=
  if version = "" then -1
  else if (version.splitOn ".").length ≥ 3 then 1
  else 0

/-- `analyzeSecurityProvisions`: counts configured measure categories with
bonuses, then subtracts the base expectation of 2. -/
def analyzeSecurityProvisions (provisions : SecurityProvisions) : Int :=
  let score : Int := 0
  let score := if provisions.dataConfidentiality.length > 0 then
      (if provisions.dataConfidentiality.length > 2 then score + 2 else score + 1)
    else score
  let score := if provisions.dataIntegrity.length > 0 then
      (if provisions.dataIntegrity.length > 2 then score + 2 else score + 1)
    else score
  let score := if provisions.applicationAuthenticity.length > 0 then score + 1 else score
  let score := if provisions.rolesAndPermissions.length > 0 then
      (if provisions.rolesAndPermissions.length > 3 then score + 2 else score + 1)
    else score
  let score := if provisions.applicationAvailability.responseTime > 0 then score + 1 else score
  score - 2

/-- `analyzeDocumentationCompleteness` (days since update = hours / 24). -/
def analyzeDocumentationCompleteness (now : ℚ) (catalogue : ApplicationCatalogue) : Int :=
  let score : Int := 0
  let score := if catalogue.lastUpdated ≠ 0 then
      (let daysSinceUpdate : ℚ := (now - catalogue.lastUpdated) / 24
       if daysSinceUpdate < 90 then score + 2
       else if daysSinceUpdate < 365 then score + 1
       else score)
    else score - 1
  let score := if catalogue.functionality.length > 0 then
      (if catalogue.functionality.length > 5 then score + 2 else score + 1)
    else score
  score

/-- `analyzeApplicationAge`. -/
def analyzeApplicationAge (now : ℚ) (createdAt updatedAt : GoTime) : Int :=
  if createdAt = 0 then 0
  else
    let ageInDays : ℚ := (now - createdAt) / 24
    if ageInDays > 365 * 5 then -2
    else if ageInDays > 365 * 2 then -1
    else if updatedAt ≠ 0 then
      let daysSinceUpdate : ℚ := (now - updatedAt) / 24
      if daysSinceUpdate < 90 then 1
      else if daysSinceUpdate < 180 then 0
      else 0
    else 0

/-- `analyzeApplicationStatus`. -/
def analyzeApplicationStatus (status : ApplicationStatus) : Int :=
  match status with
  | .active => 1
  | .deprecated => -1
  | .retired => -2
  | .planned => 0

/-- `adjustScoreWithVariance`.  `minFactor`/`maxFactor` are unused in the
source as well.  The float expression `float64(baseScore) * 0.1` is
modelled as the exact rational `baseScore / 10`; for every integer input
the final converted integer agrees with the binary-float computation (the
only inexactly-representable constant, 0.1, never moves the value across a
truncation boundary, and `b * 0.1` is exactly 0.5 in float64 for b = 5). -/
def adjustScoreWithVariance (baseScore : Int) (minFactor maxFactor : ℚ) : Int :=
  let variance : ℚ := (baseScore : ℚ) * (1 / 10)
  let variance := if variance > 1 / 2 then 1 / 2 else variance
  let variance := if variance < -(1 / 2) then -(1 / 2) else variance
  let adjusted : ℚ := (baseScore : ℚ) + variance
  let adjusted := if adjusted < 1 then 1 else adjusted
  let adjusted := if adjusted > 5 then 5 else adjusted
  goTrunc (adjusted + 1 / 2)

/-- The running technical score of `assessTechnicalHealth`: base 3 plus the
five signal scores, clamped to [1,5] (the two trailing if-statements of the
source before the per-metric derivation). -/
def technicalBaseScore (now : ℚ) (app : Application) : Int :=
  let score : Int := 3
  let score := score + analyzeVersionMaturity app.version
  let score := score + analyzeSecurityProvisions app.securityProvisions
  let score := score + analyzeDocumentationCompleteness now app.catalogue
  let score := score + analyzeApplicationAge now app.createdAt app.updatedAt
  let score := score + analyzeApplicationStatus app.status
  let score := if score < 1 then 1 else score
  if score > 5 then 5 else score

/-- `assessTechnicalHealth`. -/
def assessTechnicalHealth (now : ℚ) (app : Application) : TechnicalHealth :=
  let securityScore := analyzeSecurityProvisions app.securityProvisions
  let ageScore := analyzeApplicationAge now app.createdAt app.updatedAt
  let score := technicalBaseScore now app
  let basePercentage : ℚ := (score : ℚ) * 20
  { codeQuality := adjustScoreWithVariance score (8 / 10) (12 / 10)
    documentation := adjustScoreWithVariance score (9 / 10) (11 / 10)
    testCoverage := basePercentage + (securityScore : ℚ) * 5
    securityScore := adjustScoreWithVariance (score + securityScore) (7 / 10) (13 / 10)
    performanceScore := adjustScoreWithVariance (score + ageScore) (8 / 10) (12 / 10) }

/-- `calculateUsageMetrics`.  Integer divisions are Go's truncating `/`;
the float scale factors 1.5, 1.8, 1.3, 1.4 are modelled as exact
rationals (the usage metrics are not involved in any scoring decision). -/
def calculateUsageMetrics (now : ℚ) (app : Application)
    (agreement : Option GovernanceAgreement) : UsageMetrics :=
  let activeUsers : Int := 50
  let transactionVolume : Int := 1000
  let (activeUsers, transactionVolume) :=
    match app.status with
    | .active => (activeUsers * 2, transactionVolume * 3)
    | .deprecated => (activeUsers.tdiv 2, transactionVolume.tdiv 2)
    | .retired => (activeUsers.tdiv 4, transactionVolume.tdiv 4)
    | .planned => (activeUsers, transactionVolume)
  let (activeUsers, transactionVolume) :=
    if agreement.isSome then
      (goTrunc ((activeUsers : ℚ) * (3 / 2)), goTrunc ((transactionVolume : ℚ) * (9 / 5)))
    else (activeUsers, transactionVolume)
  let (activeUsers, transactionVolume) :=
    if app.createdAt ≠ 0 then
      (let ageInYears : ℚ := (now - app.createdAt) / (24 * 365)
       if ageInYears > 3 then
         (goTrunc ((activeUsers : ℚ) * (13 / 10)), goTrunc ((transactionVolume : ℚ) * (7 / 5)))
       else (activeUsers, transactionVolume))
    else (activeUsers, transactionVolume)
  let uptimePercentage : ℚ := 99
  let uptimePercentage :=
    if app.securityProvisions.rolesAndPermissions.length > 0 then uptimePercentage + 1 / 2
    else uptimePercentage
  let uptimePercentage :=
    if app.updatedAt ≠ 0 ∧ now - app.updatedAt < 24 * 30 then uptimePercentage + 2 / 5
    else uptimePercentage
  -- durations in hours: 300ms base, +200ms for "legacy" names, +50ms for integrity overhead;
  -- strings.Contains(s, sub) holds iff splitting on the substring yields more than one part
  let responseTime : ℚ := 300 / 3600000
  let responseTime :=
    if ((app.name.toLower).splitOn "legacy").length > 1 then responseTime + 200 / 3600000
    else responseTime
  let responseTime :=
    if app.securityProvisions.dataIntegrity.length > 0 then responseTime + 50 / 3600000
    else responseTime
  { activeUsers := activeUsers
    transactionVolume := transactionVolume
    uptimePercentage := uptimePercentage
    responseTime := responseTime }

/-- The pair of trailing bound checks every business-value percentage ends
with (`if v > 100 { v = 100 }; if v < 0 { v = 0 }`). -/
def clampPercent (v : ℚ) : ℚ :=
  let v := if v > 100 then 100 else v
  if v < 0 then 0 else v

/-- `calculateBusinessAlignment`. -/
def calculateBusinessAlignment (now : ℚ) (app : Application)
    (agreement : Option GovernanceAgreement) : ℚ :=
  let baseAlignment : ℚ := 70
  let baseAlignment :=
    match agreement with
    | some ag =>
      let b := baseAlignment + 20
      let b := if ag.direct.strategicDirection.objectives.length > 0 then b + 5 else b
      if ag.conformance.complianceMonitoring.monitoringFrequency ≠ "" then b + 5 else b
    | none => baseAlignment
  let baseAlignment :=
    match app.status with
    | .active => baseAlignment + 5
    | .planned => baseAlignment + 2
    | .deprecated => baseAlignment - 10
    | .retired => baseAlignment - 20
  let baseAlignment :=
    if app.updatedAt ≠ 0 ∧ now - app.updatedAt < 24 * 90 then baseAlignment + 3
    else baseAlignment
  clampPercent baseAlignment

/-- `calculateCostEfficiency`. -/
def calculateCostEfficiency (now : ℚ) (app : Application)
    (agreement : Option GovernanceAgreement) : ℚ :=
  let baseEfficiency : ℚ := 60
  let baseEfficiency :=
    match agreement with
    | some ag =>
      let b := baseEfficiency + 15
      if ag.direct.resourceAllocation.budgetAllocations.length > 0 then b + 10 else b
    | none => baseEfficiency
  let baseEfficiency :=
    match app.status with
    | .active => baseEfficiency + 10
    | .deprecated => baseEfficiency - 15
    | .retired => baseEfficiency - 25
    | .planned => baseEfficiency + 5
  let baseEfficiency :=
    if app.createdAt ≠ 0 then
      (let ageInYears : ℚ := (now - app.createdAt) / (24 * 365)
       if ageInYears > 5 then baseEfficiency - 10
       else if ageInYears < 1 then baseEfficiency + 5
       else baseEfficiency)
    else baseEfficiency
  let securityMeasures := app.securityProvisions.dataConfidentiality.length
      + app.securityProvisions.dataIntegrity.length
      + app.securityProvisions.rolesAndPermissions.length
  let baseEfficiency := if securityMeasures > 3 then baseEfficiency + 5 else baseEfficiency
  clampPercent baseEfficiency

/-- `calculateUserSatisfaction`. -/
def calculateUserSatisfaction (now : ℚ) (app : Application)
    (agreement : Option GovernanceAgreement) : ℚ :=
  let baseSatisfaction : ℚ := 65
  let baseSatisfaction :=
    match agreement with
    | some ag =>
      let b := baseSatisfaction + 15
      if ag.evaluate.performanceMetrics.length > 0 then b + 5 else b
    | none => baseSatisfaction
  let baseSatisfaction :=
    match app.status with
    | .active => baseSatisfaction + 10
    | .deprecated => baseSatisfaction - 15
    | .retired => baseSatisfaction - 30
    | .planned => baseSatisfaction + 5
  let baseSatisfaction :=
    if app.updatedAt ≠ 0 ∧ now - app.updatedAt < 24 * 60 then baseSatisfaction + 8
    else baseSatisfaction
  let baseSatisfaction :=
    if app.securityProvisions.rolesAndPermissions.length > 0 then baseSatisfaction + 3
    else baseSatisfaction
  clampPercent baseSatisfaction

/-- `assessBusinessValue` (richer variant).  The service's
`agreementRepo.FindByApplicationID` call, with its nil-repository guard and
error-means-absent handling, is the `Option`-valued lookup. -/
def assessBusinessValue (findAgreementByApp : ApplicationID → Option GovernanceAgreement)
    (now : ℚ) (app : Application) : BusinessValueAssessment :=
  let agreement := findAgreementByApp app.id
  { usageMetrics := calculateUsageMetrics now app agreement
    businessAlignment := calculateBusinessAlignment now app agreement
    costEfficiency := calculateCostEfficiency now app agreement
    userSatisfaction := calculateUserSatisfaction now app agreement }

/-- `determineRiskLevel`.  Go's `/` on int truncates toward zero
(`Int.tdiv`). -/
def determineRiskLevel (techHealth : TechnicalHealth)
    (businessValue : BusinessValueAssessment) : RiskLevel :=
  let avgScore := (techHealth.codeQuality + techHealth.securityScore
      + techHealth.performanceScore).tdiv 3
  if avgScore ≤ 2 ∨ businessValue.costEfficiency < 50 then .critical
  else if avgScore ≤ 3 ∨ businessValue.costEfficiency < 70 then .high
  else if avgScore ≤ 4 then .medium
  else .low

/-- `generateRecommendations` (effort durations in hours). -/
def generateRecommendations (techHealth : TechnicalHealth)
    (businessValue : BusinessValueAssessment) (riskLevel : RiskLevel) : List Recommendation :=
  let recommendations : List Recommendation := []
  let recommendations :=
    if techHealth.securityScore < 3 then recommendations ++
      [{ id := "sec-001", type := .modernize,
         description := "Improve security measures and implement additional security controls",
         priority := .high, estimatedEffort := 80,
         businessImpact := "Reduce security risks and ensure compliance" }]
    else recommendations
  let recommendations :=
    if techHealth.codeQuality < 3 then recommendations ++
      [{ id := "tech-001", type := .enhance,
         description := "Refactor code to improve quality and maintainability",
         priority := .medium, estimatedEffort := 120,
         businessImpact := "Reduce technical debt and improve development velocity" }]
    else recommendations
  let recommendations :=
    if businessValue.costEfficiency < 70 then recommendations ++
      [{ id := "cost-001", type := .replace,
         description := "Evaluate more cost-effective alternatives",
         priority := .medium, estimatedEffort := 40,
         businessImpact := "Reduce operational costs" }]
    else recommendations
  let recommendations :=
    if riskLevel = .critical then recommendations ++
      [{ id := "risk-001", type := .retire,
         description := "Consider retiring or replacing this high-risk application",
         priority := .critical, estimatedEffort := 160,
         businessImpact := "Eliminate critical business and technical risks" }]
    else recommendations
  recommendations

/-- The repository state an `EvaluationService` reads: `FindByID` on the
application store, `FindByApplicationID` on the agreement store and
`FindByID` on the portfolio store, each returning the entity or a
not-found failure. -/
structure Stores where
  findApp : ApplicationID → Option Application
  findAgreementByApp : ApplicationID → Option GovernanceAgreement
  findPortfolio : PortfolioID → Option ApplicationPortfolio

/-- `EvaluateApplication`: resolves the application, requires its linked
governance agreement to resolve (the fetched agreement itself is unused by
the scoring path), then assembles the assessment.  The `evaluator` label is
carried but never scored, as in the source. -/
def EvaluateApplication (s : Stores) (now : ℚ) (appID : ApplicationID)
    (evaluator : String) : Except String ApplicationAssessment :=
  match s.findApp appID with
  | none => .error "failed to find application: application not found"
  | some app =>
    match s.findAgreementByApp appID with
    | none => .error "failed to find governance agreement: governance agreement not found for application"
    | some _ =>
      let technicalHealth := assessTechnicalHealth now app
      let businessValue := assessBusinessValue s.findAgreementByApp now app
      let riskLevel := determineRiskLevel technicalHealth businessValue
      let recommendations := generateRecommendations technicalHealth businessValue riskLevel
      .ok { applicationID := appID
            technicalHealth := technicalHealth
            businessValue := businessValue
            riskLevel := riskLevel
            recommendations := recommendations }

/-- `calculateAverageApplicationAge`: 0 for an empty list, otherwise the
mean of `now - CreatedAt`.  (Go divides int64 nanoseconds, truncating; the
mean is taken exactly over ℚ here.) -/
def calculateAverageApplicationAge (now : ℚ) (apps : List Application) : ℚ :=
  if apps.length = 0 then 0
  else (apps.foldl (fun acc app => acc + (now - app.createdAt)) 0) / (apps.length : ℚ)

/-- The member loop of `EvaluatePortfolio`: per application, evaluate and
on failure `continue` (skip); on success count active/deprecated statuses
and bump the risk histogram.  The Go loop runs left to right; the counts
and histogram are order-insensitive, so the list is consumed head-first
(the locally built `assessments` slice is discarded by the source too).
Returns (active, deprecated, riskDistribution). -/
def evaluatePortfolioLoop (s : Stores) (now : ℚ) :
    List Application → Int × Int × (RiskLevel → Int)
  | [] => (0, 0, fun _ => 0)
  | app :: rest =>
    let r := evaluatePortfolioLoop s now rest
    match EvaluateApplication s now app.id "system" with
    | .error _ => r
    | .ok assessment =>
      let statusInc : Int × Int :=
        match app.status with
        | .active => (1, 0)
        | .deprecated => (0, 1)
        | _ => (0, 0)
      (r.1 + statusInc.1, r.2.1 + statusInc.2,
        fun l => r.2.2 l + (if l = assessment.riskLevel then 1 else 0))

/-- `EvaluatePortfolio`: resolves the portfolio, runs the member loop,
and fills the assessment (redundant count and total cost are the source's
constant zeros). -/
def EvaluatePortfolio (s : Stores) (now : ℚ) (portfolioID : PortfolioID) :
    Except String PortfolioHealthAssessment :=
  match s.findPortfolio portfolioID with
  | none => .error "failed to find portfolio: portfolio not found"
  | some portfolio =>
    let apps := portfolio.applications
    let counts := evaluatePortfolioLoop s now apps
    .ok { totalApplications := (apps.length : Int)
          activeApplications := counts.1
          deprecatedApplications := counts.2.1
          redundantApplications := 0
          totalCost := 0
          averageApplicationAge := calculateAverageApplicationAge now apps
          riskDistribution := counts.2.2 }


/-! ### Monitoring service. -/

/-- The repository state a `MonitoringService` holds; the KPI, measurement
and risk repositories are optional collaborators (`nil` in Go means the
demo fallback is used).  A configured KPI repository is its `FindAll`
view, a measurement repository its `FindLatest` view, a risk repository
its `FindAll` view. -/
structure MonitoringStores where
  findAgreement : GovernanceAgreementID → Option GovernanceAgreement
  kpiRepo : Option (List KPI)
  measurementRepo : Option (String → Option KPIMeasurement)
  riskRepo : Option (List Risk)

/-- `isKPITargetAchieved`: category "efficiency" means lower is better;
"performance" and every other category mean higher is better. -/
def isKPITargetAchieved (kpi : KPI) (measurement : KPIMeasurement) : Bool :=
  if kpi.category = "performance" then measurement.value ≥ kpi.target
  else if kpi.category = "efficiency" then measurement.value ≤ kpi.target
  else measurement.value ≥ kpi.target

/-- `MonitorKPIs`: verifies the agreement exists; with no KPI or
measurement repository configured returns the two fixed demo records;
otherwise walks every stored KPI, substituting a zero-value placeholder
when no measurement exists and recomputing `Achieved`. -/
def MonitorKPIs (s : MonitoringStores) (now : ℚ) (agreementID : GovernanceAgreementID) :
    Except String (List KPIMeasurement) :=
  match s.findAgreement agreementID with
  | none => .error "failed to find governance agreement: governance agreement not found"
  | some _ =>
    match s.kpiRepo, s.measurementRepo with
    | some kpis, some findLatest =>
      .ok (kpis.map fun kpi =>
        let measurement :=
          match findLatest kpi.id with
          | some m => m
          | none =>
            { kpiID := kpi.id, value := 0, target := kpi.target, achieved := false,
              measuredAt := now, notes := "No measurement available" }
        { measurement with achieved := isKPITargetAchieved kpi measurement })
    | _, _ =>
      .ok [{ kpiID := "kpi-001", value := 95.5, target := 100, achieved := false,
             measuredAt := now, notes := "Demo KPI measurement" },
           { kpiID := "kpi-002", value := 99.2, target := 98, achieved := true,
             measuredAt := now, notes := "Demo KPI measurement" }]

/-- `MonitorCompliance`: pure passthrough of the agreement's embedded
compliance-monitoring configuration. -/
def MonitorCompliance (s : MonitoringStores) (agreementID : GovernanceAgreementID) :
    Except String ComplianceMonitoring :=
  match s.findAgreement agreementID with
  | none => .error "failed to find governance agreement: governance agreement not found"
  | some agreement => .ok agreement.conformance.complianceMonitoring

/-- `convertImpactToNumeric`: impact weights 1/2/3/4. -/
def convertImpactToNumeric (impact : RiskImpact) : ℚ :=
  match impact with
  | .low => 1
  | .medium => 2
  | .high => 3
  | .critical => 4

/-- `getRiskThreshold`: level thresholds 2/4/8/12. -/
def getRiskThreshold (level : RiskLevel) : ℚ :=
  match level with
  | .low => 2
  | .medium => 4
  | .high => 8
  | .critical => 12

/-- `determineRiskStatus`: indicator value `probability × impact weight`
against the level threshold (×1.5 for critical). -/
def determineRiskStatus (risk : Risk) : RiskStatus :=
  let currentValue := risk.probability * convertImpactToNumeric risk.impact
  let threshold := getRiskThreshold risk.level
  if currentValue ≥ threshold * (3 / 2) then .critical
  else if currentValue ≥ threshold then .warning
  else .normal

/-- `MonitorRisks`: fixed demo indicators when no risk repository is
configured, otherwise one indicator per stored risk. -/
def MonitorRisks (s : MonitoringStores) (agreementID : GovernanceAgreementID) :
    Except String RiskMonitoring :=
  match s.riskRepo with
  | none =>
    .ok { riskIndicators :=
            [{ name := "Technical Debt", value := 75, threshold := 80,
               status := .warning },
             { name := "Security Vulnerabilities", value := 25, threshold := 50,
               status := .normal }]
          riskHeatMaps := []
          mitigationTracking := [] }
  | some risks =>
    .ok { riskIndicators := risks.map fun risk =>
            { name := risk.name
              value := risk.probability * convertImpactToNumeric risk.impact
              threshold := getRiskThreshold risk.level
              status := determineRiskStatus risk }
          riskHeatMaps := []
          mitigationTracking := [] }

/-! ### Aggregates (invariant-guarded mutation with domain events). -/

/-- The closed union of domain-event records the aggregates emit. -/
inductive DomainEvent
  | portfolioCreated (portfolioID : PortfolioID) (name owner : String) (occurredAt : GoTime)
  | applicationAddedToPortfolio (portfolioID : PortfolioID) (applicationID : ApplicationID)
      (applicationName : String) (governanceAgreementID : GovernanceAgreementID)
      (occurredAt : GoTime)
  | applicationRemovedFromPortfolio (portfolioID : PortfolioID) (applicationID : ApplicationID)
      (applicationName : String) (occurredAt : GoTime)
  | applicationUpdated (portfolioID : PortfolioID) (applicationID : ApplicationID)
      (applicationName : String) (occurredAt : GoTime)
  | governanceAgreementCreated (agreementID : GovernanceAgreementID)
      (applicationID : ApplicationID) (title : String) (occurredAt : GoTime)
  | governanceAgreementUpdated (agreementID : GovernanceAgreementID) (component : String)
      (occurredAt : GoTime)
  | governanceAgreementApproved (agreementID : GovernanceAgreementID) (occurredAt : GoTime)
  | governanceAgreementActivated (agreementID : GovernanceAgreementID) (occurredAt : GoTime)
  deriving DecidableEq, Inhabited, Repr

/-- `Application.Validate`: the error message (`some`) or success (`none`). -/
def Application.Validate (a : Application) : Option String :=
  if a.id = "" then some "application ID cannot be empty"
  else if a.name = "" then some "application name cannot be empty"
  else none

/-- `ApplicationPortfolio.AddApplication` (the entity method): validation,
duplicate-ID rejection, then append.  The Go method mutates the receiver
only on the success path; failure is an error return with the receiver
untouched, which the `Except` result models (`ok` carries the updated
portfolio). -/
def ApplicationPortfolio.AddApplication (ap : ApplicationPortfolio) (now : ℚ)
    (app : Application) : Except String ApplicationPortfolio :=
  match app.Validate with
  | some e => .error e
  | none =>
    if ap.applications.any (fun existing => existing.id == app.id) then
      .error "application already exists in portfolio"
    else
      .ok { ap with applications := ap.applications ++ [app], updatedAt := now }

/-- `ApplicationPortfolioAggregate`. -/
structure ApplicationPortfolioAggregate where
  portfolio : ApplicationPortfolio
  domainEvents : List DomainEvent
  deriving DecidableEq, Inhabited, Repr

/-- The duplicate scan of the aggregate's `AddApplication`: the first
existing member with the same ID or (checked second per element) the same
name produces the corresponding error. -/
def aggregateDuplicateCheck : List Application → Application → Option String
  | [], _ => none
  | existing :: rest, app =>
    if existing.id == app.id then some "application already exists in portfolio"
    else if existing.name == app.name then
      some "application with same name already exists in portfolio"
    else aggregateDuplicateCheck rest app

/-- `ApplicationPortfolioAggregate.AddApplication`: validation, duplicate
scan, governance-agreement requirement, then append plus a domain event. -/
def ApplicationPortfolioAggregate.AddApplication (a : ApplicationPortfolioAggregate)
    (now : ℚ) (app : Application) : Except String ApplicationPortfolioAggregate :=
  match app.Validate with
  | some e => .error ("invalid application: " ++ e)
  | none =>
    match aggregateDuplicateCheck a.portfolio.applications app with
    | some e => .error e
    | none =>
      if app.governanceAgreementID = "" then
        .error "application must have a governance agreement"
      else
        .ok { portfolio := { a.portfolio with
                applications := a.portfolio.applications ++ [app]
                updatedAt := now }
              domainEvents := a.domainEvents ++
                [DomainEvent.applicationAddedToPortfolio a.portfolio.id app.id app.name
                  app.governanceAgreementID now] }

/-- `GovernanceAgreementAggregate`. -/
structure GovernanceAgreementAggregate where
  agreement : GovernanceAgreement
  domainEvents : List DomainEvent
  deriving DecidableEq, Inhabited, Repr

/-- `GovernanceAgreementAggregate.Approve`: only draft agreements can be
approved; success moves the status to approved, stamps `UpdatedAt` and
emits the approval event. -/
def GovernanceAgreementAggregate.Approve (a : GovernanceAgreementAggregate) (now : ℚ) :
    Except String GovernanceAgreementAggregate :=
  if a.agreement.status ≠ AgreementStatus.draft then
    .error "only draft agreements can be approved"
  else
    .ok { agreement := { a.agreement with status := .approved, updatedAt := now }
          domainEvents := a.domainEvents ++
            [DomainEvent.governanceAgreementApproved a.agreement.id now] }

/-- `GovernanceAgreementAggregate.Activate`: only approved agreements can
be activated; success moves the status to active, stamps `UpdatedAt` and
emits the activation event. -/
def GovernanceAgreementAggregate.Activate (a : GovernanceAgreementAggregate) (now : ℚ) :
    Except String GovernanceAgreementAggregate :=
  if a.agreement.status ≠ AgreementStatus.approved then
    .error "only approved agreements can be activated"
  else
    .ok { agreement := { a.agreement with status := .active, updatedAt := now }
          domainEvents := a.domainEvents ++
            [DomainEvent.governanceAgreementActivated a.agreement.id now] }

/-- One successful `Approve` or `Activate` step, projected onto agreement
statuses. -/
def AgreementStatusStep (s s' : AgreementStatus) : Prop :=
  ∃ (now : ℚ) (a a' : GovernanceAgreementAggregate),
    a.agreement.status = s ∧ a'.agreement.status = s' ∧
    (a.Approve now = Except.ok a' ∨ a.Activate now = Except.ok a')


/-! ### Spec-side definitions (written from the specification text, for the
refinement claims) and concrete fixtures used by witness theorems. -/

/-- Spec-side reading of the per-metric variance adjustment: a variance of
10% of the sub-score, clamped to plus/minus 0.5, added to the sub-score,
rounded to the nearest integer, then clamped to [1,5]. -/
def specVarianceAdjustedScore (b : Int) : Int :=
  let variance : ℚ := (b : ℚ) / 10
  let variance := if variance > 1 / 2 then 1 / 2 else variance
  let variance := if variance < -(1 / 2) then -(1 / 2) else variance
  let rounded : Int := round ((b : ℚ) + variance)
  let clamped := if rounded < 1 then 1 else rounded
  if clamped > 5 then 5 else clamped

/-- Spec-side reading of the risk rule: the integer-truncating average of
CodeQuality, SecurityScore and PerformanceScore; Critical if it is at most
2 or cost-efficiency is below 50, otherwise High if it is at most 3 or
cost-efficiency is below 70, otherwise Medium if it is at most 4,
otherwise Low. -/
def determineRiskLevelSpec (techHealth : TechnicalHealth)
    (businessValue : BusinessValueAssessment) : RiskLevel :=
  let avg := (techHealth.codeQuality + techHealth.securityScore
      + techHealth.performanceScore).tdiv 3
  if avg ≤ 2 ∨ businessValue.costEfficiency < 50 then RiskLevel.critical
  else if avg ≤ 3 ∨ businessValue.costEfficiency < 70 then RiskLevel.high
  else if avg ≤ 4 then RiskLevel.medium
  else RiskLevel.low

/-- A concrete application used by witness theorems. -/
def sampleApp : Application :=
  { (default : Application) with
    id := "app-001", name := "Sample Application", version := "1.0.0",
    status := ApplicationStatus.active }

/-- A concrete governance agreement linked to `sampleApp`. -/
def sampleAgreement : GovernanceAgreement :=
  { (default : GovernanceAgreement) with
    id := "agr-001", applicationID := "app-001", title := "Sample Agreement",
    version := "1.0", status := AgreementStatus.draft }

/-- Stores holding `sampleApp` and its linked agreement. -/
def sampleStores : Stores :=
  { findApp := fun aid => if aid = "app-001" then some sampleApp else none
    findAgreementByApp := fun aid => if aid = "app-001" then some sampleAgreement else none
    findPortfolio := fun _ => none }

/-- Stores with nothing in them. -/
def emptyStores : Stores :=
  { findApp := fun _ => none
    findAgreementByApp := fun _ => none
    findPortfolio := fun _ => none }

/-- A portfolio whose one member application cannot be evaluated (its
stores hold no agreement), for the skip-on-failure witness. -/
def samplePortfolio : ApplicationPortfolio :=
  { (default : ApplicationPortfolio) with
    id := "pf-001", name := "Sample Portfolio", owner := "owner",
    applications := [sampleApp] }

/-- Stores that resolve `samplePortfolio` but no application/agreement, so
every member evaluation fails. -/
def portfolioOnlyStores : Stores :=
  { findApp := fun _ => none
    findAgreementByApp := fun _ => none
    findPortfolio := fun pid => if pid = "pf-001" then some samplePortfolio else none }

/-- Monitoring stores with the agreement resolvable and no KPI,
measurement or risk repository configured. -/
def demoMonitoringStores : MonitoringStores :=
  { findAgreement := fun aid => if aid = "agr-001" then some sampleAgreement else none
    kpiRepo := none
    measurementRepo := none
    riskRepo := none }

/-- A freshly created aggregate around a draft agreement. -/
def draftAggregate : GovernanceAgreementAggregate :=
  { agreement := sampleAgreement, domainEvents := [] }

/-- A stored high-level risk with probability 1/2. -/
def sampleHighRisk : Risk :=
  { (default : Risk) with
    id := "risk-1", name := "Sample Risk", probability := 1 / 2,
    impact := RiskImpact.high, level := RiskLevel.high }

/-- An application already present in the counterexample portfolio. -/
def cexExistingApp : Application :=
  { (default : Application) with id := "dup-app", name := "Existing App" }

/-- An application with a duplicate ID that fails validation (empty name). -/
def cexInvalidApp : Application :=
  { (default : Application) with id := "dup-app", name := "" }

/-- A valid application with a duplicate ID. -/
def wDupApp : Application :=
  { (default : Application) with id := "dup-app", name := "New App" }

/-- The portfolio already containing `cexExistingApp`. -/
def cexPortfolio : ApplicationPortfolio :=
  { (default : ApplicationPortfolio) with
    id := "pf-cex", name := "Cex Portfolio", owner := "owner",
    applications := [cexExistingApp] }


/-! ### Helper lemmas. -/

/-- Truncation agrees with the floor on nonnegative inputs pinned between
`n` and `n + 1`. -/
lemma goTrunc_eq (q : ℚ) (n : ℤ) (h0 : 0 ≤ q) (hl : (n : ℚ) ≤ q)
    (hu : q < (n : ℚ) + 1) : goTrunc q = n := by
  rw [goTrunc, if_neg (not_lt.mpr h0)]
  exact Int.floor_eq_iff.mpr ⟨hl, by exact_mod_cast hu⟩

/-- Closed form of the code's variance adjustment: nonpositive sub-scores
land on 1, sub-scores of five or more land on 5, and sub-scores 1-4 are
returned unchanged. -/
lemma adjustScoreWithVariance_closedForm (b : Int) (mn mx : ℚ) :
    adjustScoreWithVariance b mn mx = if b ≤ 0 then 1 else if 5 ≤ b then 5 else b := by
  simp only [adjustScoreWithVariance]
  rcases le_or_lt 6 b with h6 | h6
  · have hbQ : (6 : ℚ) ≤ (b : ℚ) := by exact_mod_cast h6
    rw [if_pos (show (b : ℚ) * (1 / 10) > 1 / 2 by linarith)]
    rw [if_neg (show ¬((1 : ℚ) / 2 < -(1 / 2)) by norm_num)]
    rw [if_neg (show ¬((b : ℚ) + 1 / 2 < 1) by linarith)]
    rw [if_pos (show (b : ℚ) + 1 / 2 > 5 by linarith)]
    rw [if_neg (show ¬(b ≤ 0) by omega), if_pos (show 5 ≤ b by omega)]
    exact goTrunc_eq _ 5 (by norm_num) (by norm_num) (by norm_num)
  · rcases le_or_lt b (-6) with hm6 | hm6
    · have hbQ : (b : ℚ) ≤ -6 := by exact_mod_cast hm6
      rw [if_neg (show ¬((b : ℚ) * (1 / 10) > 1 / 2) by linarith)]
      rw [if_pos (show (b : ℚ) * (1 / 10) < -(1 / 2) by linarith)]
      rw [if_pos (show (b : ℚ) + -(1 / 2) < 1 by linarith)]
      rw [if_neg (show ¬((1 : ℚ) > 5) by norm_num)]
      rw [if_pos (show b ≤ 0 by omega)]
      exact goTrunc_eq _ 1 (by norm_num) (by norm_num) (by norm_num)
    · have hbQl : (-5 : ℚ) ≤ (b : ℚ) := by exact_mod_cast (show (-5 : ℤ) ≤ b by omega)
      have hbQu : (b : ℚ) ≤ 5 := by exact_mod_cast (show b ≤ (5 : ℤ) by omega)
      rcases le_or_lt b 0 with hb0 | hb0
      · have hbQ0 : (b : ℚ) ≤ 0 := by exact_mod_cast hb0
        rw [if_neg (show ¬((b : ℚ) * (1 / 10) > 1 / 2) by linarith)]
        rw [if_neg (show ¬((b : ℚ) * (1 / 10) < -(1 / 2)) by linarith)]
        rw [if_pos (show (b : ℚ) + (b : ℚ) * (1 / 10) < 1 by linarith)]
        rw [if_neg (show ¬((1 : ℚ) > 5) by norm_num)]
        rw [if_pos hb0]
        exact goTrunc_eq _ 1 (by norm_num) (by norm_num) (by norm_num)
      · rcases lt_or_eq_of_le (show b ≤ 5 by omega) with hb5 | hb5
        · have h1 : (1 : ℚ) ≤ (b : ℚ) := by exact_mod_cast (show (1 : ℤ) ≤ b by omega)
          have h4 : (b : ℚ) ≤ 4 := by exact_mod_cast (show b ≤ (4 : ℤ) by omega)
          rw [if_neg (show ¬((b : ℚ) * (1 / 10) > 1 / 2) by linarith)]
          rw [if_neg (show ¬((b : ℚ) * (1 / 10) < -(1 / 2)) by linarith)]
          rw [if_neg (show ¬((b : ℚ) + (b : ℚ) * (1 / 10) < 1) by linarith)]
          rw [if_neg (show ¬((b : ℚ) + (b : ℚ) * (1 / 10) > 5) by linarith)]
          rw [if_neg (show ¬(b ≤ 0) by omega), if_neg (show ¬(5 ≤ b) by omega)]
          exact goTrunc_eq _ b (by linarith) (by linarith) (by linarith)
        · subst hb5
          rw [if_neg (show ¬(((5 : ℤ) : ℚ) * (1 / 10) > 1 / 2) by norm_num)]
          rw [if_neg (show ¬(((5 : ℤ) : ℚ) * (1 / 10) < -(1 / 2)) by norm_num)]
          rw [if_neg (show ¬(((5 : ℤ) : ℚ) + ((5 : ℤ) : ℚ) * (1 / 10) < 1) by norm_num)]
          rw [if_pos (show ((5 : ℤ) : ℚ) + ((5 : ℤ) : ℚ) * (1 / 10) > 5 by norm_num)]
          rw [if_neg (show ¬((5 : ℤ) ≤ 0) by omega), if_pos (show (5 : ℤ) ≤ 5 by omega)]
          exact goTrunc_eq _ 5 (by norm_num) (by norm_num) (by norm_num)

/-- Closed form of the spec-side variance adjustment: it coincides with the
code's. -/
lemma specVarianceAdjustedScore_closedForm (b : Int) :
    specVarianceAdjustedScore b = if b ≤ 0 then 1 else if 5 ≤ b then 5 else b := by
  simp only [specVarianceAdjustedScore]
  rcases le_or_lt 6 b with h6 | h6
  · have hbQ : (6 : ℚ) ≤ (b : ℚ) := by exact_mod_cast h6
    rw [if_pos (show (b : ℚ) / 10 > 1 / 2 by linarith)]
    rw [if_neg (show ¬((1 : ℚ) / 2 < -(1 / 2)) by norm_num)]
    have hr : round ((b : ℚ) + 1 / 2) = b + 1 := by
      rw [round_eq]
      have : (b : ℚ) + 1 / 2 + 1 / 2 = ((b + 1 : ℤ) : ℚ) := by push_cast; ring
      rw [this, Int.floor_intCast]
    rw [hr]
    rw [if_neg (show ¬(b + 1 < 1) by omega)]
    rw [if_pos (show b + 1 > 5 by omega)]
    rw [if_neg (show ¬(b ≤ 0) by omega), if_pos (show 5 ≤ b by omega)]
  · rcases le_or_lt b (-6) with hm6 | hm6
    · have hbQ : (b : ℚ) ≤ -6 := by exact_mod_cast hm6
      rw [if_neg (show ¬((b : ℚ) / 10 > 1 / 2) by linarith)]
      rw [if_pos (show (b : ℚ) / 10 < -(1 / 2) by linarith)]
      have hr : round ((b : ℚ) + -(1 / 2)) = b := by
        rw [round_eq]
        have : (b : ℚ) + -(1 / 2) + 1 / 2 = ((b : ℤ) : ℚ) := by push_cast; ring
        rw [this, Int.floor_intCast]
      rw [hr]
      rw [if_pos (show b < 1 by omega)]
      rw [if_neg (show ¬((1 : ℤ) > 5) by omega)]
      rw [if_pos (show b ≤ 0 by omega)]
    · have hbQl : (-5 : ℚ) ≤ (b : ℚ) := by exact_mod_cast (show (-5 : ℤ) ≤ b by omega)
      have hbQu : (b : ℚ) ≤ 5 := by exact_mod_cast (show b ≤ (5 : ℤ) by omega)
      rcases le_or_lt b 0 with hb0 | hb0
      · have hbQ0 : (b : ℚ) ≤ 0 := by exact_mod_cast hb0
        rw [if_neg (show ¬((b : ℚ) / 10 > 1 / 2) by linarith)]
        rw [if_neg (show ¬((b : ℚ) / 10 < -(1 / 2)) by linarith)]
        have hr : round ((b : ℚ) + (b : ℚ) / 10) < 1 := by
          rw [round_eq]
          exact Int.floor_lt.mpr (by push_cast; linarith)
        rw [if_pos hr]
        rw [if_neg (show ¬((1 : ℤ) > 5) by omega)]
        rw [if_pos hb0]
      · rcases lt_or_eq_of_le (show b ≤ 5 by omega) with hb5 | hb5
        · have h1 : (1 : ℚ) ≤ (b : ℚ) := by exact_mod_cast (show (1 : ℤ) ≤ b by omega)
          have h4 : (b : ℚ) ≤ 4 := by exact_mod_cast (show b ≤ (4 : ℤ) by omega)
          rw [if_neg (show ¬((b : ℚ) / 10 > 1 / 2) by linarith)]
          rw [if_neg (show ¬((b : ℚ) / 10 < -(1 / 2)) by linarith)]
          have hr : round ((b : ℚ) + (b : ℚ) / 10) = b := by
            rw [round_eq]
            exact Int.floor_eq_iff.mpr ⟨by push_cast; linarith, by push_cast; linarith⟩
          rw [hr]
          rw [if_neg (show ¬(b < 1) by omega)]
          rw [if_neg (show ¬(b > 5) by omega)]
          rw [if_neg (show ¬(b ≤ 0) by omega), if_neg (show ¬(5 ≤ b) by omega)]
        · subst hb5
          rw [if_neg (show ¬(((5 : ℤ) : ℚ) / 10 > 1 / 2) by norm_num)]
          rw [if_neg (show ¬(((5 : ℤ) : ℚ) / 10 < -(1 / 2)) by norm_num)]
          have hr : round (((5 : ℤ) : ℚ) + ((5 : ℤ) : ℚ) / 10) = 6 := by
            rw [round_eq]
            have : ((5 : ℤ) : ℚ) + ((5 : ℤ) : ℚ) / 10 + 1 / 2 = ((6 : ℤ) : ℚ) := by norm_num
            rw [this, Int.floor_intCast]
          rw [hr]
          rw [if_neg (show ¬((6 : ℤ) < 1) by omega)]
          rw [if_pos (show (6 : ℤ) > 5 by omega)]
          rw [if_neg (show ¬((5 : ℤ) ≤ 0) by omega), if_pos (show (5 : ℤ) ≤ 5 by omega)]

/-- The code's adjustment and the spec's adjustment agree on every integer
sub-score. -/
lemma adjustScoreWithVariance_eq_spec (b : Int) (mn mx : ℚ) :
    adjustScoreWithVariance b mn mx = specVarianceAdjustedScore b := by
  rw [adjustScoreWithVariance_closedForm, specVarianceAdjustedScore_closedForm]

/-- The variance adjustment always lands in [1,5]. -/
lemma adjustScoreWithVariance_bounds (b : Int) (mn mx : ℚ) :
    1 ≤ adjustScoreWithVariance b mn mx ∧ adjustScoreWithVariance b mn mx ≤ 5 := by
  rw [adjustScoreWithVariance_closedForm]
  split_ifs <;> omega

/-- The trailing percentage clamp lands in [0,100]. -/
lemma clampPercent_bounds (v : ℚ) : 0 ≤ clampPercent v ∧ clampPercent v ≤ 100 := by
  simp only [clampPercent]
  split_ifs <;> constructor <;> linarith


/-! ### Claim theorems. -/

/-- C1: for every TechnicalHealth and BusinessValueAssessment (in
particular those produced by the richer evaluation variant),
`determineRiskLevel` returns the risk level given by the
integer-truncating average of CodeQuality, SecurityScore and
PerformanceScore: Critical if that average is at most 2 or CostEfficiency
is below 50; otherwise High if the average is at most 3 or CostEfficiency
is below 70; otherwise Medium if the average is at most 4; otherwise
Low. -/
theorem determineRiskLevel_matches_spec (techHealth : TechnicalHealth)
    (businessValue : BusinessValueAssessment) :
    determineRiskLevel techHealth businessValue
      = determineRiskLevelSpec techHealth businessValue := rfl

/-- C2: for every Application (any combination of version, security
provisions, catalogue, timestamps and status), any evaluation time and
any agreement-store contents, the four integer TechnicalHealth fields
returned by `assessTechnicalHealth` lie in [1,5] and the three
BusinessValueAssessment percentages returned by `assessBusinessValue` lie
in [0,100]. -/
theorem assessment_scores_within_bounds (s : Stores) (now : ℚ) (app : Application) :
    (1 ≤ (assessTechnicalHealth now app).codeQuality
      ∧ (assessTechnicalHealth now app).codeQuality ≤ 5)
  ∧ (1 ≤ (assessTechnicalHealth now app).documentation
      ∧ (assessTechnicalHealth now app).documentation ≤ 5)
  ∧ (1 ≤ (assessTechnicalHealth now app).securityScore
      ∧ (assessTechnicalHealth now app).securityScore ≤ 5)
  ∧ (1 ≤ (assessTechnicalHealth now app).performanceScore
      ∧ (assessTechnicalHealth now app).performanceScore ≤ 5)
  ∧ (0 ≤ (assessBusinessValue s.findAgreementByApp now app).businessAlignment
      ∧ (assessBusinessValue s.findAgreementByApp now app).businessAlignment ≤ 100)
  ∧ (0 ≤ (assessBusinessValue s.findAgreementByApp now app).costEfficiency
      ∧ (assessBusinessValue s.findAgreementByApp now app).costEfficiency ≤ 100)
  ∧ (0 ≤ (assessBusinessValue s.findAgreementByApp now app).userSatisfaction
      ∧ (assessBusinessValue s.findAgreementByApp now app).userSatisfaction ≤ 100) := by
  refine ⟨?_, ?_, ?_, ?_, ?_, ?_, ?_⟩
  · simp only [assessTechnicalHealth]
    exact adjustScoreWithVariance_bounds _ _ _
  · simp only [assessTechnicalHealth]
    exact adjustScoreWithVariance_bounds _ _ _
  · simp only [assessTechnicalHealth]
    exact adjustScoreWithVariance_bounds _ _ _
  · simp only [assessTechnicalHealth]
    exact adjustScoreWithVariance_bounds _ _ _
  · simp only [assessBusinessValue, calculateBusinessAlignment]
    exact clampPercent_bounds _
  · simp only [assessBusinessValue, calculateCostEfficiency]
    exact clampPercent_bounds _
  · simp only [assessBusinessValue, calculateUserSatisfaction]
    exact clampPercent_bounds _

/-- C3: in the richer scoring variant each of CodeQuality, Documentation,
SecurityScore and PerformanceScore equals the relevant sub-score
(the clamped overall score; plus the security delta for SecurityScore;
plus the age score for PerformanceScore) adjusted by the deterministic
variance of 10% of that sub-score clamped to plus/minus 0.5, rounded to
the nearest integer and clamped to [1,5]; and TestCoverage equals
baseScore*20 + securityDelta*5 as an unclamped percentage. -/
theorem technicalHealth_variance_formula (now : ℚ) (app : Application) :
    (assessTechnicalHealth now app).codeQuality
        = specVarianceAdjustedScore (technicalBaseScore now app)
  ∧ (assessTechnicalHealth now app).documentation
        = specVarianceAdjustedScore (technicalBaseScore now app)
  ∧ (assessTechnicalHealth now app).securityScore
        = specVarianceAdjustedScore (technicalBaseScore now app
            + analyzeSecurityProvisions app.securityProvisions)
  ∧ (assessTechnicalHealth now app).performanceScore
        = specVarianceAdjustedScore (technicalBaseScore now app
            + analyzeApplicationAge now app.createdAt app.updatedAt)
  ∧ (assessTechnicalHealth now app).testCoverage
        = (technicalBaseScore now app : ℚ) * 20
            + (analyzeSecurityProvisions app.securityProvisions : ℚ) * 5 := by
  refine ⟨?_, ?_, ?_, ?_, rfl⟩ <;>
    (simp only [assessTechnicalHealth]; exact adjustScoreWithVariance_eq_spec _ _ _)


/-- C4: `EvaluateApplication` fails with the not-found error whenever the
application is absent or no governance agreement is linked to the
application ID, and succeeds exactly when both lookups resolve. -/
theorem evaluateApplication_requires_both_lookups (s : Stores) (now : ℚ)
    (appID : ApplicationID) (evaluator : String) :
    (s.findApp appID = none →
      EvaluateApplication s now appID evaluator
        = Except.error "failed to find application: application not found")
  ∧ (∀ app, s.findApp appID = some app → s.findAgreementByApp appID = none →
      EvaluateApplication s now appID evaluator
        = Except.error
            "failed to find governance agreement: governance agreement not found for application")
  ∧ ((∃ a, EvaluateApplication s now appID evaluator = Except.ok a)
      ↔ (∃ app, s.findApp appID = some app) ∧ (∃ ag, s.findAgreementByApp appID = some ag)) := by
  refine ⟨?_, ?_, ?_, ?_⟩
  · intro h
    simp [EvaluateApplication, h]
  · intro app happ hagr
    simp [EvaluateApplication, happ, hagr]
  · rintro ⟨a, ha⟩
    cases h1 : s.findApp appID with
    | none => simp [EvaluateApplication, h1] at ha
    | some app =>
      cases h2 : s.findAgreementByApp appID with
      | none => simp [EvaluateApplication, h1, h2] at ha
      | some ag => exact ⟨⟨app, rfl⟩, ⟨ag, rfl⟩⟩
  · rintro ⟨⟨app, happ⟩, ⟨ag, hagr⟩⟩
    cases h : EvaluateApplication s now appID evaluator with
    | ok a => exact ⟨a, rfl⟩
    | error e => simp [EvaluateApplication, happ, hagr] at h

/-- C4 witness: on empty stores the evaluation reports the application
not-found error. -/
theorem evaluateApplication_requires_both_lookups_witness :
    EvaluateApplication emptyStores 0 "missing-app" "auditor"
      = Except.error "failed to find application: application not found" :=
  (evaluateApplication_requires_both_lookups emptyStores 0 "missing-app" "auditor").1 rfl

/-- The member loop's active and deprecated counters are nonnegative and
together never exceed the number of member applications. -/
lemma evaluatePortfolioLoop_bounds (s : Stores) (now : ℚ) (apps : List Application) :
    0 ≤ (evaluatePortfolioLoop s now apps).1
  ∧ 0 ≤ (evaluatePortfolioLoop s now apps).2.1
  ∧ (evaluatePortfolioLoop s now apps).1 + (evaluatePortfolioLoop s now apps).2.1
      ≤ (apps.length : Int) := by
  induction apps with
  | nil => simp [evaluatePortfolioLoop]
  | cons app rest ih =>
    obtain ⟨h1, h2, h3⟩ := ih
    simp only [evaluatePortfolioLoop, List.length_cons]
    cases h : EvaluateApplication s now app.id "system" with
    | error e =>
      simp only [h]
      refine ⟨h1, h2, ?_⟩
      push_cast at h3 ⊢
      linarith
    | ok assessment =>
      simp only [h]
      cases hs : app.status <;> simp only [hs] <;>
        exact ⟨by linarith, by linarith, by push_cast at h3 ⊢; linarith⟩

/-- C5: whenever the portfolio resolves, `EvaluatePortfolio` succeeds (it
skips members whose individual evaluation errors rather than aborting),
the returned counts satisfy active + deprecated ≤ total, and an empty
portfolio yields total 0 and average age 0 with no division failure. -/
theorem evaluatePortfolio_skips_and_counts (s : Stores) (now : ℚ) (pid : PortfolioID)
    (p : ApplicationPortfolio) (hp : s.findPortfolio pid = some p) :
    ∃ a : PortfolioHealthAssessment,
      EvaluatePortfolio s now pid = Except.ok a
      ∧ a.totalApplications = (p.applications.length : Int)
      ∧ a.activeApplications + a.deprecatedApplications ≤ a.totalApplications
      ∧ (p.applications = [] → a.totalApplications = 0 ∧ a.averageApplicationAge = 0) := by
  refine ⟨{ totalApplications := (p.applications.length : Int)
            activeApplications := (evaluatePortfolioLoop s now p.applications).1
            deprecatedApplications := (evaluatePortfolioLoop s now p.applications).2.1
            redundantApplications := 0
            totalCost := 0
            averageApplicationAge := calculateAverageApplicationAge now p.applications
            riskDistribution := (evaluatePortfolioLoop s now p.applications).2.2 },
          ?_, rfl, ?_, ?_⟩
  · simp [EvaluatePortfolio, hp]
  · exact (evaluatePortfolioLoop_bounds s now p.applications).2.2
  · intro h
    refine ⟨by simp [h], by simp [calculateAverageApplicationAge, h]⟩

/-- C5 witness: a portfolio whose single member cannot be evaluated is
still assessed successfully. -/
theorem evaluatePortfolio_skips_and_counts_witness :
    (EvaluatePortfolio portfolioOnlyStores 0 "pf-001").isOk = true := by
  obtain ⟨a, ha, -, -, -⟩ :=
    evaluatePortfolio_skips_and_counts portfolioOnlyStores 0 "pf-001" samplePortfolio rfl
  rw [ha]
  rfl


/-- A successful `Approve` starts from a draft and lands on approved. -/
lemma approve_ok_characterization (n : ℚ) (x x' : GovernanceAgreementAggregate)
    (h : x.Approve n = Except.ok x') :
    x.agreement.status = AgreementStatus.draft
    ∧ x'.agreement.status = AgreementStatus.approved := by
  simp only [GovernanceAgreementAggregate.Approve] at h
  split_ifs at h with hc
  cases h
  exact ⟨not_not.mp hc, rfl⟩

/-- A successful `Activate` starts from approved and lands on active. -/
lemma activate_ok_characterization (n : ℚ) (x x' : GovernanceAgreementAggregate)
    (h : x.Activate n = Except.ok x') :
    x.agreement.status = AgreementStatus.approved
    ∧ x'.agreement.status = AgreementStatus.active := by
  simp only [GovernanceAgreementAggregate.Activate] at h
  split_ifs at h with hc
  cases h
  exact ⟨not_not.mp hc, rfl⟩

/-- C6: `Approve` succeeds exactly on Draft agreements (landing on
Approved) and `Activate` succeeds exactly on Approved agreements (landing
on Active); a failed call returns an error and produces no new state, so
the status is unchanged; consequently every successful step is either
Draft to Approved or Approved to Active, and Draft-Approved-Active is the
only reachable transition sequence through these operations. -/
theorem agreement_status_transitions (now : ℚ) (a : GovernanceAgreementAggregate) :
    ((∃ a', a.Approve now = Except.ok a') ↔ a.agreement.status = AgreementStatus.draft)
  ∧ ((∃ a', a.Activate now = Except.ok a') ↔ a.agreement.status = AgreementStatus.approved)
  ∧ (∀ a', a.Approve now = Except.ok a' → a'.agreement.status = AgreementStatus.approved)
  ∧ (∀ a', a.Activate now = Except.ok a' → a'.agreement.status = AgreementStatus.active)
  ∧ (a.agreement.status ≠ AgreementStatus.draft →
      a.Approve now = Except.error "only draft agreements can be approved")
  ∧ (a.agreement.status ≠ AgreementStatus.approved →
      a.Activate now = Except.error "only approved agreements can be activated")
  ∧ (∀ s s', AgreementStatusStep s s' →
      (s = AgreementStatus.draft ∧ s' = AgreementStatus.approved)
      ∨ (s = AgreementStatus.approved ∧ s' = AgreementStatus.active)) := by
  refine ⟨⟨?_, ?_⟩, ⟨?_, ?_⟩, ?_, ?_, ?_, ?_, ?_⟩
  · rintro ⟨a', h⟩
    exact (approve_ok_characterization now a a' h).1
  · intro hs
    exact ⟨{ agreement := { a.agreement with status := .approved, updatedAt := now }
             domainEvents := a.domainEvents ++
               [DomainEvent.governanceAgreementApproved a.agreement.id now] },
           by simp [GovernanceAgreementAggregate.Approve, hs]⟩
  · rintro ⟨a', h⟩
    exact (activate_ok_characterization now a a' h).1
  · intro hs
    exact ⟨{ agreement := { a.agreement with status := .active, updatedAt := now }
             domainEvents := a.domainEvents ++
               [DomainEvent.governanceAgreementActivated a.agreement.id now] },
           by simp [GovernanceAgreementAggregate.Activate, hs]⟩
  · intro a' h
    exact (approve_ok_characterization now a a' h).2
  · intro a' h
    exact (activate_ok_characterization now a a' h).2
  · intro hs
    simp [GovernanceAgreementAggregate.Approve, hs]
  · intro hs
    simp [GovernanceAgreementAggregate.Activate, hs]
  · rintro s s' ⟨n, x, x', hs, hs', h | h⟩
    · left
      obtain ⟨hd, ha⟩ := approve_ok_characterization n x x' h
      exact ⟨by rw [← hs]; exact hd, by rw [← hs']; exact ha⟩
    · right
      obtain ⟨hd, ha⟩ := activate_ok_characterization n x x' h
      exact ⟨by rw [← hs]; exact hd, by rw [← hs']; exact ha⟩

/-- C6 witness: the freshly created draft aggregate approves successfully
and a second Approve on the result fails. -/
theorem agreement_status_transitions_witness :
    draftAggregate.agreement.status = AgreementStatus.draft
    ∧ (draftAggregate.Approve 0).isOk = true := by
  refine ⟨rfl, ?_⟩
  obtain ⟨a', ha⟩ := (agreement_status_transitions 0 draftAggregate).1.mpr rfl
  rw [ha]
  rfl

/-- C7: whenever the agreement resolves and no KPI or measurement
repository is configured, `MonitorKPIs` returns exactly the two fixed
records, in order: kpi-001 (95.5 against 100.0, not achieved) and kpi-002
(99.2 against 98.0, achieved); when the agreement does not resolve it
returns an error instead. -/
theorem monitorKPIs_demo_fallback (s : MonitoringStores) (now : ℚ)
    (agreementID : GovernanceAgreementID)
    (hdemo : s.kpiRepo = none ∨ s.measurementRepo = none) :
    (∀ ag, s.findAgreement agreementID = some ag →
      MonitorKPIs s now agreementID
        = Except.ok
            [{ kpiID := "kpi-001", value := 95.5, target := 100, achieved := false,
               measuredAt := now, notes := "Demo KPI measurement" },
             { kpiID := "kpi-002", value := 99.2, target := 98, achieved := true,
               measuredAt := now, notes := "Demo KPI measurement" }])
  ∧ (s.findAgreement agreementID = none →
      MonitorKPIs s now agreementID
        = Except.error "failed to find governance agreement: governance agreement not found") := by
  constructor
  · intro ag hag
    rcases hdemo with h | h
    · simp [MonitorKPIs, hag, h]
    · cases hk : s.kpiRepo with
      | none => simp [MonitorKPIs, hag, h, hk]
      | some ks => simp [MonitorKPIs, hag, h, hk]
  · intro h
    simp [MonitorKPIs, h]

/-- C7 witness: the demo monitoring stores produce the two fixed records. -/
theorem monitorKPIs_demo_fallback_witness :
    MonitorKPIs demoMonitoringStores 0 "agr-001"
      = Except.ok
          [{ kpiID := "kpi-001", value := 95.5, target := 100, achieved := false,
             measuredAt := 0, notes := "Demo KPI measurement" },
           { kpiID := "kpi-002", value := 99.2, target := 98, achieved := true,
             measuredAt := 0, notes := "Demo KPI measurement" }] :=
  (monitorKPIs_demo_fallback demoMonitoringStores 0 "agr-001" (Or.inl rfl)).1
    sampleAgreement rfl

/-- C8: the evaluation is a pure, deterministic function of the
application record and the agreement view of the store: two calls with the
same application-lookup result and the same agreement view (everything
else in the stores, and the evaluator label, may differ) return identical
assessments, recommendations included. -/
theorem evaluateApplication_deterministic (s₁ s₂ : Stores) (now : ℚ)
    (appID : ApplicationID) (e₁ e₂ : String)
    (happ : s₁.findApp appID = s₂.findApp appID)
    (hagr : s₁.findAgreementByApp = s₂.findAgreementByApp) :
    EvaluateApplication s₁ now appID e₁ = EvaluateApplication s₂ now appID e₂ := by
  simp only [EvaluateApplication, happ, hagr]

/-- C8 witness: evaluating the sample application twice (with different
evaluator labels) yields the same assessment. -/
theorem evaluateApplication_deterministic_witness :
    EvaluateApplication sampleStores 0 "app-001" "auditor-a"
      = EvaluateApplication sampleStores 0 "app-001" "auditor-b" :=
  evaluateApplication_deterministic sampleStores sampleStores 0 "app-001"
    "auditor-a" "auditor-b" rfl rfl


/-- If the added application's ID already occurs among the members, the
aggregate's duplicate scan reports one of the two duplicate errors. -/
lemma aggregateDuplicateCheck_of_mem (apps : List Application) (app : Application)
    (h : app.id ∈ apps.map (·.id)) :
    aggregateDuplicateCheck apps app = some "application already exists in portfolio"
    ∨ aggregateDuplicateCheck apps app
        = some "application with same name already exists in portfolio" := by
  induction apps with
  | nil => simp at h
  | cons x rest ih =>
    simp only [List.map_cons, List.mem_cons] at h
    simp only [aggregateDuplicateCheck]
    by_cases h1 : x.id == app.id
    · left
      rw [if_pos h1]
    · by_cases h2 : x.name == app.name
      · right
        rw [if_neg h1, if_pos h2]
      · rw [if_neg h1, if_neg h2]
        apply ih
        rcases h with h | h
        · exact absurd (beq_iff_eq.mpr h.symm) h1
        · exact h

/-- C9 (amended): adding an application whose ID already appears in the
portfolio always fails — so the Applications list is left unchanged (no
successor state is produced) — and the error is the AlreadyExists-style
duplicate error whenever the application passes validation; an
application failing validation (empty ID or name) is rejected with the
validation error before the duplicate check is reached.  The same holds
for the aggregate-level AddApplication, whose duplicate scan may also
report the duplicate-name variant. -/
theorem addApplication_duplicate_rejected (now : ℚ) (ap : ApplicationPortfolio)
    (app : Application) (hdup : app.id ∈ ap.applications.map (·.id)) :
    (∀ ap', ap.AddApplication now app ≠ Except.ok ap')
  ∧ (app.Validate = none →
      ap.AddApplication now app = Except.error "application already exists in portfolio")
  ∧ (∀ (agg agg' : ApplicationPortfolioAggregate), agg.portfolio = ap →
      agg.AddApplication now app ≠ Except.ok agg')
  ∧ (app.Validate = none → ∀ agg : ApplicationPortfolioAggregate, agg.portfolio = ap →
      agg.AddApplication now app = Except.error "application already exists in portfolio"
      ∨ agg.AddApplication now app
          = Except.error "application with same name already exists in portfolio") := by
  have hany : ap.applications.any (fun existing => existing.id == app.id) = true := by
    rw [List.any_eq_true]
    obtain ⟨x, hx, hid⟩ : ∃ x ∈ ap.applications, x.id = app.id := by
      simpa using hdup
    exact ⟨x, hx, by simp [hid]⟩
  refine ⟨?_, ?_, ?_, ?_⟩
  · intro ap' hok
    cases hv : app.Validate with
    | some e => simp [ApplicationPortfolio.AddApplication, hv] at hok
    | none => simp [ApplicationPortfolio.AddApplication, hv, hany] at hok
  · intro hv
    simp [ApplicationPortfolio.AddApplication, hv, hany]
  · intro agg agg' hagg hok
    cases hv : app.Validate with
    | some e => simp [ApplicationPortfolioAggregate.AddApplication, hv] at hok
    | none =>
      rcases aggregateDuplicateCheck_of_mem agg.portfolio.applications app
          (by rw [hagg]; exact hdup) with hc | hc <;>
        simp [ApplicationPortfolioAggregate.AddApplication, hv, hc] at hok
  · intro hv agg hagg
    rcases aggregateDuplicateCheck_of_mem agg.portfolio.applications app
        (by rw [hagg]; exact hdup) with hc | hc
    · left
      simp [ApplicationPortfolioAggregate.AddApplication, hv, hc]
    · right
      simp [ApplicationPortfolioAggregate.AddApplication, hv, hc]

/-- C9 counterexample: with a member of the same ID already present,
adding an application that fails validation (duplicate ID "dup-app",
empty name) is rejected with the validation error, not an
AlreadyExists-style error — refuting the claim that every duplicate-ID
add fails with an AlreadyExists-style error (the list is still left
unchanged). -/
theorem addApplication_duplicate_validation_cex :
    cexInvalidApp.id ∈ cexPortfolio.applications.map (·.id)
  ∧ cexPortfolio.AddApplication 0 cexInvalidApp
      = Except.error "application name cannot be empty"
  ∧ cexPortfolio.AddApplication 0 cexInvalidApp
      ≠ Except.error "application already exists in portfolio"
  ∧ cexPortfolio.AddApplication 0 cexInvalidApp
      ≠ Except.error "application with same name already exists in portfolio" := by
  refine ⟨?_, rfl, ?_, ?_⟩
  · simp [cexPortfolio, cexInvalidApp, cexExistingApp]
  · intro h
    rw [show cexPortfolio.AddApplication 0 cexInvalidApp
          = Except.error "application name cannot be empty" from rfl] at h
    injection h with he
    exact absurd he (by decide)
  · intro h
    rw [show cexPortfolio.AddApplication 0 cexInvalidApp
          = Except.error "application name cannot be empty" from rfl] at h
    injection h with he
    exact absurd he (by decide)

/-- C9 witness: a valid application with a duplicate ID is rejected with
the AlreadyExists error. -/
theorem addApplication_duplicate_rejected_witness :
    cexPortfolio.AddApplication 0 wDupApp
      = Except.error "application already exists in portfolio" :=
  (addApplication_duplicate_rejected 0 cexPortfolio wDupApp
      (by simp [cexPortfolio, wDupApp, cexExistingApp])).2.1 rfl

/-- C10: a stored risk whose probability lies in [0,1] and whose level is
High or Critical is always classified Normal by `determineRiskStatus`,
because its indicator value (probability times impact weight) is at most
4, strictly below the High threshold 8 and the Critical threshold 12 —
hence `MonitorRisks` can report Warning or Critical status only for risks
whose level is Low or Medium. -/
theorem highRisk_status_normal (r : Risk) (h0 : 0 ≤ r.probability)
    (h1 : r.probability ≤ 1)
    (hl : r.level = RiskLevel.high ∨ r.level = RiskLevel.critical) :
    determineRiskStatus r = RiskStatus.normal := by
  have hw1 : 1 ≤ convertImpactToNumeric r.impact := by
    cases r.impact <;> norm_num [convertImpactToNumeric]
  have hw4 : convertImpactToNumeric r.impact ≤ 4 := by
    cases r.impact <;> norm_num [convertImpactToNumeric]
  have hv : r.probability * convertImpactToNumeric r.impact ≤ 4 := by
    nlinarith
  have ht : 8 ≤ getRiskThreshold r.level := by
    rcases hl with h | h <;> rw [h] <;> norm_num [getRiskThreshold]
  simp only [determineRiskStatus]
  rw [if_neg (show ¬(r.probability * convertImpactToNumeric r.impact
        ≥ getRiskThreshold r.level * (3 / 2)) by push_neg; linarith)]
  rw [if_neg (show ¬(r.probability * convertImpactToNumeric r.impact
        ≥ getRiskThreshold r.level) by push_neg; linarith)]

/-- C10 witness: a high-level risk with probability 1/2 is classified
Normal. -/
theorem highRisk_status_normal_witness :
    determineRiskStatus sampleHighRisk = RiskStatus.normal :=
  highRisk_status_normal sampleHighRisk (by norm_num [sampleHighRisk])
    (by norm_num [sampleHighRisk]) (Or.inl rfl)

end Iso38500
